import Mathlib

/-!
Verification development for the nexus-conversations ingestion microservice
(`conversation_ms`). The Python sources are shallowly embedded: stateful code
becomes explicit state passing over `SystemState` / `ConsumerState`, machine
integers become `Nat`, fallible paths become explicit outcome values, and the
nondeterministic inputs of the code (uuid4, wall clock) become the `nextUuid`
and `now` fields threaded through the state.
-/

namespace NexusConversations

/-- adapters/entities.py `ResolutionEntities.RESOLVED`. -/
def RESOLVED : Nat := 0

/-- adapters/entities.py `ResolutionEntities.UNRESOLVED`. -/
def UNRESOLVED : Nat := 1

/-- adapters/entities.py `ResolutionEntities.IN_PROGRESS`. -/
def IN_PROGRESS : Nat := 2

/-- adapters/entities.py `ResolutionEntities.UNCLASSIFIED`. -/
def UNCLASSIFIED : Nat := 3

/-- adapters/entities.py `ResolutionEntities.HAS_CHAT_ROOM`. -/
def HAS_CHAT_ROOM : Nat := 4

/-- models.py `Conversation` row. `resolution` is held as a number (the model
normalizes the source's coexisting int/str conventions to integer values;
comparisons in the source are `str(resolution) == "2"` style, which on this
model is numeric equality). Timestamps (`created_at`, `start_date`,
`end_date`) are instants in seconds. -/
structure Conversation where
  uuid : Nat
  createdAt : Nat
  contactUrn : String
  projectUuid : String
  externalId : Option String
  startDate : Option Nat
  endDate : Option Nat
  hasChatsRoom : Bool
  contactName : String
  channelUuid : Option String
  nps : Option String
  csat : Option String
  resolution : Nat
  deriving DecidableEq, Repr

/-- adapters/dynamo.py: one hot-store (DynamoDB) item as written by
`storage_message`. -/
structure HotMessage where
  conversationKey : String
  messageTimestamp : String
  projectUuid : String
  contactUrn : String
  channelUuid : Option String
  messageId : String
  messageText : String
  sourceType : String
  createdAt : String
  resolutionStatus : Nat
  expiresOn : Nat
  deriving DecidableEq, Repr

/-- adapters/dynamo.py `_format_message` output / migration row element:
`{text, source, created_at}`. -/
structure FormattedMessage where
  text : String
  source : String
  createdAt : String
  deriving DecidableEq, Repr

/-- The durable store, hot store, and side-effect queues, plus the
nondeterminism oracles of the code (uuid4 as `nextUuid`, wall clock as
`now`). `archives` models the `ConversationMessages` table keyed by the
conversation uuid; `classificationQueue` the Celery
`classify_conversation_task.delay` calls; `dataLakeQueue` the
`send_data_lake_event.delay` calls (recording the event key). -/
structure SystemState where
  projects : List String
  conversations : List Conversation
  hotMessages : List HotMessage
  archives : List (Nat × List FormattedMessage)
  classificationQueue : List Nat
  dataLakeQueue : List String
  nextUuid : Nat
  now : Nat
  deriving DecidableEq, Repr

/-- Python `str` applied to an optional value: `str(None) = "None"`. -/
def pyStr : Option String → String
  | none => "None"
  | some s => s

/-- Python truthiness test `not channel_uuid` used as the guard in
services/conversation_service.py and the window service: `None` and `""`
are both falsy. -/
def isBlankChannel : Option String → Bool
  | none => true
  | some c => c == ""

/-- Python `a or b` on optional strings (`""` and `None` are falsy). -/
def pyOrOptStr (a b : Option String) : Option String :=
  match a with
  | some v => if v == "" then b else some v
  | none => b

/-- Python `a or b` where `a` is an optional instant (datetimes are truthy). -/
def pyOrOptNat (a b : Option Nat) : Option Nat :=
  match a with
  | some v => some v
  | none => b

/-- adapters/dynamo.py `_convert_to_dynamo_sortable_timestamp`. The
pendulum parse / UTC reformat is an external library call; the embedding
keeps the repository-defined fallback branch (strip the trailing `Z` and
`+00:00` markers). No claim in this development depends on the parsed
normal form, only on the string being deterministic in the input. -/
def convertToDynamoSortableTimestamp (createdAt : String) : String :=
  (createdAt.replace "Z" "").replace "+00:00" ""

/-- adapters/dynamo.py: the composite partition key
`f"{project_uuid}#{contact_urn}#{channel_uuid}"`. -/
def conversationKeyOf (projectUuid contactUrn : String) (channelUuid : Option String) : String :=
  projectUuid ++ "#" ++ contactUrn ++ "#" ++ pyStr channelUuid

/-- The `message_data` dict handed to `storage_message`
(`{text, source, created_at}`). -/
structure MessageData where
  text : String
  source : String
  createdAt : String
  deriving DecidableEq, Repr

/-- adapters/dynamo.py `DynamoMessageRepository.storage_message`: builds the
item (fresh uuid4 message id, TTL `now + ttl_hours*3600`) and puts it into
the hot store. -/
def storageMessage (s : SystemState) (projectUuid contactUrn : String)
    (messageData : MessageData) (channelUuid : Option String)
    (resolutionStatus : Nat) (ttlHours : Nat) : SystemState :=
  let key := conversationKeyOf projectUuid contactUrn channelUuid
  let messageId := toString s.nextUuid
  let ttlTimestamp := s.now + ttlHours * 3600
  let sortable := convertToDynamoSortableTimestamp messageData.createdAt
  let item : HotMessage :=
    { conversationKey := key
      messageTimestamp := sortable ++ "#" ++ messageId
      projectUuid := projectUuid
      contactUrn := contactUrn
      channelUuid := channelUuid
      messageId := messageId
      messageText := messageData.text
      sourceType := messageData.source
      createdAt := sortable
      resolutionStatus := resolutionStatus
      expiresOn := ttlTimestamp }
  { s with hotMessages := s.hotMessages ++ [item], nextUuid := s.nextUuid + 1 }

/-- Insertion step for the descending sort-key order of a DynamoDB query
with `ScanIndexForward=False`. -/
def insertByTimestampDesc (m : HotMessage) : List HotMessage → List HotMessage
  | [] => [m]
  | x :: xs =>
    if x.messageTimestamp < m.messageTimestamp then m :: x :: xs
    else x :: insertByTimestampDesc m xs

/-- The hot-store partition in descending sort-key order (newest first), as
a DynamoDB query with `ScanIndexForward=False` returns it. -/
def sortByTimestampDesc (l : List HotMessage) : List HotMessage :=
  l.foldr insertByTimestampDesc []

/-- All hot-store items of one partition, newest first. -/
def queryPartition (s : SystemState) (key : String) : List HotMessage :=
  sortByTimestampDesc (s.hotMessages.filter (fun m => m.conversationKey == key))

/-- adapters/dynamo.py `_format_message`. -/
def formatMessage (item : HotMessage) : FormattedMessage :=
  { text := item.messageText, source := item.sourceType, createdAt := item.createdAt }

/-- adapters/dynamo.py `get_messages` without a cursor: one page of at most
`limit` items of the partition, newest first, each formatted by
`_format_message`. -/
def getMessages (s : SystemState) (projectUuid contactUrn : String)
    (channelUuid : Option String) (limit : Nat) : List FormattedMessage :=
  ((queryPartition s (conversationKeyOf projectUuid contactUrn channelUuid)).take limit).map
    formatMessage

/-- adapters/dynamo.py `delete_messages_by_conversation`: paged key-only
queries followed by batch deletes of the whole partition; returns the
deleted count. (No code under src/ ever calls this function.) -/
def deleteMessagesByConversation (s : SystemState) (projectUuid contactUrn : String)
    (channelUuid : Option String) : SystemState × Nat :=
  let key := conversationKeyOf projectUuid contactUrn channelUuid
  let kept := s.hotMessages.filter (fun m => !(m.conversationKey == key))
  let removed := (s.hotMessages.filter (fun m => m.conversationKey == key)).length
  ({ s with hotMessages := kept }, removed)

/-- repositories/message_repository.py `_is_conversation_in_progress`:
`str(conversation.resolution) == "2"`, i.e. numeric equality with
`IN_PROGRESS` on the integer-normalized model. -/
def isConversationInProgress (conversation : Conversation) : Bool :=
  conversation.resolution == IN_PROGRESS

/-- events.py `MessageReceivedEvent` / `MessageSentEvent` after
`from_sqs_event`: the decoded fields of a message event. `timestamp` is the
parsed `created_at` rendered back as a string (the `datetime.fromisoformat`
round trip is an external library call; the embedding keeps the
`Z`-normalized source string, falling back to the current instant when
`created_at` is empty). -/
structure MessageEvent where
  correlationId : Option String
  projectUuid : String
  contactUrn : String
  channelUuid : Option String
  messageText : String
  messageSource : Option String
  contactName : Option String
  timestamp : String
  deriving DecidableEq, Repr

/-- The decoded JSON body of a queue message, flattened: `event_type` and
`correlation_id` at top level, the `data` payload fields inline. Window
dates (`start`/`end`) appear post-parse as optional instants, `none` both
for absence and for parse failure, matching events.py. -/
structure EventData where
  correlationId : Option String
  eventType : Option String
  projectUuid : String
  contactUrn : String
  channelUuid : Option String
  messageText : String
  messageSource : Option String
  contactName : Option String
  messageCreatedAt : String
  key : Option String
  value : Option String
  externalId : Option String
  startDate : Option Nat
  endDate : Option Nat
  hasChatsRoom : Bool
  nameAttr : Option String
  deriving DecidableEq, Repr

/-- events.py `MessageReceivedEvent.from_sqs_event` (and the identical
`MessageSentEvent.from_sqs_event`). -/
def messageEventFromSqs (nowIso : String) (d : EventData) : MessageEvent :=
  { correlationId := d.correlationId
    projectUuid := d.projectUuid
    contactUrn := d.contactUrn
    channelUuid := d.channelUuid
    messageText := d.messageText
    messageSource := d.messageSource
    contactName := d.contactName
    timestamp := if d.messageCreatedAt == "" then nowIso
      else d.messageCreatedAt.replace "Z" "+00:00" }

/-- events.py `ConversationWindowEvent` after `from_sqs_event`. -/
structure WindowEvent where
  correlationId : Option String
  projectUuid : String
  contactUrn : String
  channelUuid : Option String
  externalId : Option String
  startDate : Option Nat
  endDate : Option Nat
  hasChatsRoom : Bool
  contactName : Option String
  deriving DecidableEq, Repr

/-- events.py `ConversationWindowEvent.from_sqs_event`. -/
def windowEventFromSqs (d : EventData) : WindowEvent :=
  { correlationId := d.correlationId
    projectUuid := d.projectUuid
    contactUrn := d.contactUrn
    channelUuid := d.channelUuid
    externalId := d.externalId
    startDate := d.startDate
    endDate := d.endDate
    hasChatsRoom := d.hasChatsRoom
    contactName := d.nameAttr }

/-- repositories/message_repository.py `save_received_message`: writes to
the hot store only when `_is_conversation_in_progress`, with
`source = message.get("source", "incoming")`, `resolution_status=2`,
`ttl_hours=48`. -/
def saveReceivedMessage (s : SystemState) (conversation : Conversation)
    (event : MessageEvent) : SystemState :=
  if isConversationInProgress conversation then
    let formatted : MessageData :=
      { text := event.messageText
        source := event.messageSource.getD "incoming"
        createdAt := event.timestamp }
    storageMessage s event.projectUuid event.contactUrn formatted event.channelUuid
      IN_PROGRESS 48
  else s

/-- repositories/message_repository.py `save_sent_message`: identical to
`save_received_message` but with default source `"outgoing"`. -/
def saveSentMessage (s : SystemState) (conversation : Conversation)
    (event : MessageEvent) : SystemState :=
  if isConversationInProgress conversation then
    let formatted : MessageData :=
      { text := event.messageText
        source := event.messageSource.getD "outgoing"
        createdAt := event.timestamp }
    storageMessage s event.projectUuid event.contactUrn formatted event.channelUuid
      IN_PROGRESS 48
  else s

/-- repositories/message_repository.py `get_messages_from_dynamo`: one
`get_messages` page with `limit=1000`; the returned `next_cursor` is
ignored by every caller. -/
def getMessagesFromDynamo (s : SystemState) (projectUuid contactUrn : String)
    (channelUuid : Option String) : List FormattedMessage :=
  getMessages s projectUuid contactUrn channelUuid 1000

/-- Replace-or-append for the one-to-one `ConversationMessages` row,
modelling `ConversationMessages.objects.update_or_create`. -/
def archiveUpsert (s : SystemState) (conversationUuid : Nat)
    (msgs : List FormattedMessage) : SystemState :=
  if s.archives.any (fun e => e.fst == conversationUuid) then
    { s with archives := s.archives.map (fun e =>
        if e.fst == conversationUuid then (conversationUuid, msgs) else e) }
  else
    { s with archives := s.archives ++ [(conversationUuid, msgs)] }

/-- Reads the archived-messages row of a conversation, if any. -/
def archiveLookup (s : SystemState) (conversationUuid : Nat) :
    Option (List FormattedMessage) :=
  (s.archives.find? (fun e => e.fst == conversationUuid)).map (·.snd)

/-- services/message_migration_service.py
`migrate_conversation_messages_to_postgres`: reads the hot-store page via
`get_messages_from_dynamo`, returns untouched when it is empty, otherwise
reshapes to `{text, source, created_at}` and upserts the
`ConversationMessages` row. The hot store is not touched. -/
def migrateConversationMessagesToPostgres (s : SystemState)
    (conversation : Conversation) : SystemState :=
  let messages := getMessagesFromDynamo s conversation.projectUuid conversation.contactUrn
    conversation.channelUuid
  if messages.isEmpty then s
  else
    let formatted := messages.map (fun m =>
      ({ text := m.text, source := m.source, createdAt := m.createdAt } : FormattedMessage))
    archiveUpsert s conversation.uuid formatted

/-- adapters/router_service.py: the `IN_PROGRESS` queryset filter of
`MainConversationService.ensure_conversation_exists`
(`project`, `channel_uuid`, `contact_urn`, `resolution=2`). -/
def matchesActiveTriple (projectUuid contactUrn channelUuid : String)
    (c : Conversation) : Bool :=
  c.projectUuid == projectUuid && c.channelUuid == some channelUuid &&
    c.contactUrn == contactUrn && c.resolution == IN_PROGRESS

/-- Django `order_by("-created_at").first()`: the first row of maximal
`created_at` (stable towards earlier rows on ties). -/
def mostRecentCreated : List Conversation → Option Conversation
  | [] => none
  | c :: cs => some (cs.foldl (fun best x => if best.createdAt < x.createdAt then x else best) c)

/-- Django `Project.objects.get_or_create(uuid=..., defaults={"name": None})`. -/
def getOrCreateProject (s : SystemState) (projectUuid : String) : SystemState :=
  if projectUuid ∈ s.projects then s
  else { s with projects := s.projects ++ [projectUuid] }

/-- Django `save()` of an existing row: replace the conversation with the
same primary key. -/
def saveConversation (s : SystemState) (c : Conversation) : SystemState :=
  { s with conversations := s.conversations.map (fun x => if x.uuid == c.uuid then c else x) }

/-- adapters/router_service.py `MainConversationService._create_conversation`:
`start_date = now`, `end_date = start_date + 1 day`, `resolution = 2`. -/
def createConversation (s : SystemState)
    (projectUuid contactUrn contactName channelUuid : String) :
    Conversation × SystemState :=
  let startDate := s.now
  let endDate := startDate + 86400
  let conversation : Conversation :=
    { uuid := s.nextUuid
      createdAt := s.now
      contactUrn := contactUrn
      projectUuid := projectUuid
      externalId := none
      startDate := some startDate
      endDate := some endDate
      hasChatsRoom := false
      contactName := contactName
      channelUuid := some channelUuid
      nps := none
      csat := none
      resolution := IN_PROGRESS }
  (conversation,
    { s with conversations := s.conversations ++ [conversation], nextUuid := s.nextUuid + 1 })

/-- The `IN_PROGRESS` conversations matching one
(project, contact_urn, channel_uuid) triple. -/
def activeMatches (s : SystemState) (projectUuid contactUrn channelUuid : String) :
    List Conversation :=
  s.conversations.filter (matchesActiveTriple projectUuid contactUrn channelUuid)

/-- adapters/router_service.py
`MainConversationService.ensure_conversation_exists` (the channel guard of
this class is reached only through services/conversation_service.py, which
already filtered blank channels): upsert the project; if no `IN_PROGRESS`
conversation matches, create one; if more than one matches, demote all but
the most recent to `UNCLASSIFIED` and return the survivor. -/
def ensureConversationExistsMain (s : SystemState)
    (projectUuid contactUrn contactName channelUuid : String) :
    Option Conversation × SystemState :=
  let s1 := getOrCreateProject s projectUuid
  let matching := activeMatches s1 projectUuid contactUrn channelUuid
  match mostRecentCreated matching with
  | none =>
    let (c, s2) := createConversation s1 projectUuid contactUrn contactName channelUuid
    (some c, s2)
  | some keep =>
    if 1 < matching.length then
      let s2 := { s1 with conversations := s1.conversations.map (fun c =>
        if matchesActiveTriple projectUuid contactUrn channelUuid c && !(c.uuid == keep.uuid)
        then { c with resolution := UNCLASSIFIED } else c) }
      (some keep, s2)
    else
      (some keep, s1)

/-- services/conversation_service.py `ConversationService.ensure_conversation_exists`:
returns `None` without any state change when `channel_uuid` is falsy
(`None` or `""`), otherwise delegates to `MainConversationService`. -/
def ensureConversationExists (s : SystemState)
    (projectUuid contactUrn contactName : String) (channelUuid : Option String) :
    Option Conversation × SystemState :=
  match channelUuid with
  | none => (none, s)
  | some ch =>
    if ch == "" then (none, s)
    else ensureConversationExistsMain s projectUuid contactUrn contactName ch

/-- Whether a handler returned normally or let an exception propagate. -/
inductive HandlerOutcome
  | completed
  | raised
  deriving DecidableEq, Repr

/-- Failure injection for the close path: whether the inner
`try` block around `migrate_conversation_messages_to_postgres` and
`classify_conversation_task.delay` runs clean, raises at the start of the
migration, or raises at the classification enqueue. -/
inductive CloseSideEffectMode
  | ok
  | migrationRaises
  | classificationRaises
  deriving DecidableEq, Repr

/-- The shared close path of conversation_window_service.py (lines 134-164)
and adapters/conversation.py (lines 52-77): migrate then enqueue
classification, with any exception caught and logged only. Under
`migrationRaises` nothing happens; under `classificationRaises` the
migration completes but no job is enqueued. -/
def closeSideEffects (mode : CloseSideEffectMode) (s : SystemState)
    (conversation : Conversation) : SystemState :=
  match mode with
  | .migrationRaises => s
  | .classificationRaises => migrateConversationMessagesToPostgres s conversation
  | .ok =>
    let s1 := migrateConversationMessagesToPostgres s conversation
    { s1 with classificationQueue := s1.classificationQueue ++ [conversation.uuid] }

/-- The optional attribute writes passed as `to_update` to
adapters/conversation.py `update_conversation_data` (the callers in
csat_nps_service.py pass `{"csat": v}` / `{"nps": v}`; a resolution write
models the close-triggering field update). -/
structure UpdateFieldsData where
  csat : Option String := none
  nps : Option String := none
  resolution : Option Nat := none
  deriving DecidableEq, Repr

/-- The `setattr` loop of `update_conversation_data`. -/
def applyUpdates (u : UpdateFieldsData) (c : Conversation) : Conversation :=
  let c1 := match u.csat with | none => c | some v => { c with csat := some v }
  let c2 := match u.nps with | none => c1 | some v => { c1 with nps := some v }
  match u.resolution with | none => c2 | some r => { c2 with resolution := r }

/-- The lookup of `update_conversation_data`: most recent conversation of
the (project, contact_urn, channel_uuid) triple, any resolution. -/
def tripleLookup (s : SystemState) (projectUuid contactUrn channelUuid : String) :
    Option Conversation :=
  mostRecentCreated (s.conversations.filter (fun c =>
    c.projectUuid == projectUuid && c.contactUrn == contactUrn &&
      c.channelUuid == some channelUuid))

/-- adapters/conversation.py `update_conversation_data`: find the most
recent conversation of the triple, apply the field writes, save, and when
the save took `resolution` from `IN_PROGRESS` to anything else run the
close side effects (whose exceptions are logged only). -/
def updateConversationData (mode : CloseSideEffectMode) (s : SystemState)
    (toUpdate : UpdateFieldsData) (projectUuid contactUrn channelUuid : String) :
    SystemState :=
  match tripleLookup s projectUuid contactUrn channelUuid with
  | none => s
  | some conversation =>
    let originalResolution := conversation.resolution
    let updated := applyUpdates toUpdate conversation
    let s1 := saveConversation s updated
    if originalResolution == IN_PROGRESS && !(updated.resolution == IN_PROGRESS) then
      closeSideEffects mode s1 updated
    else s1

/-- services/csat_nps_service.py `process_csat_event`: skip on a falsy
value; when the conversation has a channel, write `csat` through
`update_conversation_data`; then enqueue the `weni_csat` data-lake event.
(The data-lake DTO body is out of scope; the queue records the key.) -/
def processCsatEvent (mode : CloseSideEffectMode) (s : SystemState) (d : EventData)
    (conversation : Conversation) : SystemState :=
  match d.value with
  | none => s
  | some v =>
    if v == "" then s
    else
      let s1 :=
        if isBlankChannel conversation.channelUuid then s
        else updateConversationData mode s { csat := some v } d.projectUuid d.contactUrn
          (pyStr conversation.channelUuid)
      { s1 with dataLakeQueue := s1.dataLakeQueue ++ ["weni_csat"] }

/-- services/csat_nps_service.py `process_nps_event` (mirror of the CSAT
path with the `nps` field and the `weni_nps` key). -/
def processNpsEvent (mode : CloseSideEffectMode) (s : SystemState) (d : EventData)
    (conversation : Conversation) : SystemState :=
  match d.value with
  | none => s
  | some v =>
    if v == "" then s
    else
      let s1 :=
        if isBlankChannel conversation.channelUuid then s
        else updateConversationData mode s { nps := some v } d.projectUuid d.contactUrn
          (pyStr conversation.channelUuid)
      { s1 with dataLakeQueue := s1.dataLakeQueue ++ ["weni_nps"] }

/-- services/message_service.py `_handle_special_events`: dispatch on the
event `key` (`weni_csat` / `weni_nps`), skipping falsy keys; its own
exceptions are caught and logged (nothing in the embedding raises here). -/
def handleSpecialEvents (mode : CloseSideEffectMode) (s : SystemState) (d : EventData)
    (conversation : Conversation) : SystemState :=
  match d.key with
  | none => s
  | some k =>
    if k == "" then s
    else if k == "weni_csat" then processCsatEvent mode s d conversation
    else if k == "weni_nps" then processNpsEvent mode s d conversation
    else s

/-- services/message_service.py `process_message_received`: decode the
event, ensure the conversation (returning normally when the channel is
missing so the raw message is still acknowledged), persist to the hot
store, then handle CSAT/NPS side effects. -/
def processMessageReceived (mode : CloseSideEffectMode) (s : SystemState) (d : EventData) :
    HandlerOutcome × SystemState :=
  let event := messageEventFromSqs (toString s.now) d
  let r := ensureConversationExists s event.projectUuid event.contactUrn
    (event.contactName.getD "") event.channelUuid
  match r.1 with
  | none => (.completed, r.2)
  | some conversation =>
    let s2 := saveReceivedMessage r.2 conversation event
    let s3 := handleSpecialEvents mode s2 d conversation
    (.completed, s3)

/-- services/message_service.py `process_message_sent` (mirror of the
received path writing with default source `"outgoing"`). -/
def processMessageSent (mode : CloseSideEffectMode) (s : SystemState) (d : EventData) :
    HandlerOutcome × SystemState :=
  let event := messageEventFromSqs (toString s.now) d
  let r := ensureConversationExists s event.projectUuid event.contactUrn
    (event.contactName.getD "") event.channelUuid
  match r.1 with
  | none => (.completed, r.2)
  | some conversation =>
    let s2 := saveSentMessage r.2 conversation event
    let s3 := handleSpecialEvents mode s2 d conversation
    (.completed, s3)

/-- The lookup of conversation_window_service.py: most recent conversation
of the window's (project, channel_uuid, contact_urn), any resolution. -/
def windowLookup (s : SystemState) (event : WindowEvent) : Option Conversation :=
  mostRecentCreated (s.conversations.filter (fun c =>
    c.projectUuid == event.projectUuid && c.channelUuid == event.channelUuid &&
      c.contactUrn == event.contactUrn))

/-- The conversation created by conversation_window_service.py when no row
matches the window's triple. -/
def createWindowConversation (s : SystemState) (event : WindowEvent)
    (resolution : Nat) : Conversation × SystemState :=
  let c : Conversation :=
    { uuid := s.nextUuid
      createdAt := s.now
      contactUrn := event.contactUrn
      projectUuid := event.projectUuid
      externalId := event.externalId
      startDate := event.startDate
      endDate := event.endDate
      hasChatsRoom := event.hasChatsRoom
      contactName := event.contactName.getD ""
      channelUuid := event.channelUuid
      nps := none
      csat := none
      resolution := resolution }
  (c, { s with conversations := s.conversations ++ [c], nextUuid := s.nextUuid + 1 })

/-- services/conversation_window_service.py `process_conversation_window`:
guard on a falsy channel, upsert the project, update or create the most
recent conversation of the triple, set resolution to `HAS_CHAT_ROOM` when
`has_chats_room` else preserve (or `IN_PROGRESS` when creating), and when
the update closed an `IN_PROGRESS` conversation run the close side effects
with their exceptions caught and logged. -/
def processConversationWindow (mode : CloseSideEffectMode) (s : SystemState)
    (d : EventData) : HandlerOutcome × SystemState :=
  let event := windowEventFromSqs d
  if isBlankChannel event.channelUuid then (.completed, s)
  else
    let s1 := getOrCreateProject s event.projectUuid
    let found := windowLookup s1 event
    let resolution :=
      if event.hasChatsRoom then HAS_CHAT_ROOM
      else match found with
        | some c => c.resolution
        | none => IN_PROGRESS
    let wasInProgress :=
      match found with
      | some c => c.resolution == IN_PROGRESS
      | none => false
    let willBeClosed := !(resolution == IN_PROGRESS)
    match found with
    | some conversation =>
      let updated := { conversation with
        externalId := pyOrOptStr event.externalId conversation.externalId
        hasChatsRoom := event.hasChatsRoom
        startDate := pyOrOptNat event.startDate conversation.startDate
        endDate := pyOrOptNat event.endDate conversation.endDate
        contactName := (pyOrOptStr event.contactName (some conversation.contactName)).getD ""
        resolution := resolution }
      let s2 := saveConversation s1 updated
      let s3 := if wasInProgress && willBeClosed then closeSideEffects mode s2 updated else s2
      (.completed, s3)
    | none =>
      let r := createWindowConversation s1 event resolution
      let s3 := if wasInProgress && willBeClosed then closeSideEffects mode r.2 r.1 else r.2
      (.completed, s3)

/-- The routing targets of consumers/sqs_consumer.py `_process_message`
(lines 576-584): only `message.received` and `message.sent` are
dispatched; everything else falls into the logged `Unknown event type`
branch. -/
inductive RouteTarget
  | messageReceived
  | messageSent
  | unknownType
  deriving DecidableEq, Repr

/-- consumers/sqs_consumer.py `_process_message` routing (lines 576-584). -/
def routeEvent (eventType : Option String) : RouteTarget :=
  if eventType == some "message.received" then .messageReceived
  else if eventType == some "message.sent" then .messageSent
  else .unknownType

/-- One raw SQS message: `body = none` models a `json.JSONDecodeError`. -/
structure RawMessage where
  messageId : String
  receiptHandle : String
  body : Option EventData
  deriving DecidableEq, Repr

/-- The consumer process: the system it mutates plus its in-memory
bookkeeping (the processed correlation ids used for duplicate detection,
the counters from `_process_message`) and the set of queue deletions it
issued (`deletedHandles` records every `delete_message` /
`delete_message_batch` entry). -/
structure ConsumerState where
  sys : SystemState
  processedCorrelationIds : List (Option String)
  processedCount : Nat
  duplicateCount : Nat
  errorCount : Nat
  deletedHandles : List String
  deriving DecidableEq, Repr

/-- Outcome of `_process_message`: the returned receipt handle, a `None`
return (duplicate, or decode failure after the in-handler delete), or a
propagated exception. -/
inductive ProcessResult
  | returnedHandle (receiptHandle : String)
  | returnedNone
  | raised
  deriving DecidableEq, Repr

/-- consumers/sqs_consumer.py `_process_message`: decode failures are
deleted on the spot and return `None`; already-seen correlation ids are
counted as duplicates and return `None` without deletion; otherwise the event
is routed (unknown types are only logged) and the message is recorded as
processed. `failOracle` injects a transient unhandled exception in the
handlers, which `_process_message` re-raises (line 680). -/
def processMessage (failOracle : RawMessage → Bool) (cs : ConsumerState)
    (msg : RawMessage) : ProcessResult × ConsumerState :=
  match msg.body with
  | none =>
    (.returnedNone, { cs with deletedHandles := cs.deletedHandles ++ [msg.receiptHandle] })
  | some d =>
    if cs.processedCorrelationIds.contains d.correlationId then
      (.returnedNone, { cs with duplicateCount := cs.duplicateCount + 1 })
    else if failOracle msg then
      (.raised, cs)
    else
      let sys1 :=
        match routeEvent d.eventType with
        | .messageReceived => (processMessageReceived .ok cs.sys d).2
        | .messageSent => (processMessageSent .ok cs.sys d).2
        | .unknownType => cs.sys
      (.returnedHandle msg.receiptHandle,
        { cs with
            sys := sys1
            processedCount := cs.processedCount + 1
            processedCorrelationIds := cs.processedCorrelationIds ++ [d.correlationId] })

/-- One step of the batch loop of `start_consuming` (lines 195-216):
returned handles accumulate for the batch delete, raised messages go to
`failed_messages` with the error counter bumped. -/
def processBatchStep (failOracle : RawMessage → Bool) :
    List String × List RawMessage × ConsumerState → RawMessage →
      List String × List RawMessage × ConsumerState
  | (successes, failures, cs), msg =>
    match processMessage failOracle cs msg with
    | (.returnedHandle h, cs1) => (successes ++ [h], failures, cs1)
    | (.returnedNone, cs1) => (successes, failures, cs1)
    | (.raised, cs1) => (successes, failures ++ [msg], { cs1 with errorCount := cs1.errorCount + 1 })

/-- consumers/sqs_consumer.py `start_consuming` batch handling (lines
195-258): process every message, batch-delete the successes, then delete
each failed message individually (lines 250-258, "para não reprocessar"). -/
def processBatch (failOracle : RawMessage → Bool) (cs : ConsumerState)
    (msgs : List RawMessage) : ConsumerState :=
  let r := msgs.foldl (processBatchStep failOracle) ([], [], cs)
  let cs1 := { r.2.2 with deletedHandles := r.2.2.deletedHandles ++ r.1 }
  { cs1 with deletedHandles := cs1.deletedHandles ++ r.2.1.map (·.receiptHandle) }

/-- services/resolution_counter.py `ChannelResolutionCount`. -/
structure ChannelResolutionCount where
  channelUuid : String
  resolved : Nat := 0
  unresolved : Nat := 0
  hasChatsRooms : Nat := 0
  unclassified : Nat := 0
  deriving DecidableEq, Repr

/-- The day index of an instant (`created_at__date`): the calendar in the
model is day = seconds / 86400. -/
def dateOfInstant (t : Nat) : Nat := t / 86400

/-- services/resolution_counter.py `get_all_channels_counts` base filter:
`project_id`, `channel_uuid__isnull=False`, `created_at__date=target_date`. -/
def matchesBillingFilter (projectUuid : String) (targetDate : Nat)
    (c : Conversation) : Bool :=
  c.projectUuid == projectUuid && c.channelUuid.isSome &&
    dateOfInstant c.createdAt == targetDate

/-- The annotated counts of one `GROUP BY channel_uuid` group in
`get_all_channels_counts`: `resolved=count(res=0)`,
`unresolved=count(res=1)`, `has_chats_rooms=count(res=4 OR
has_chats_room)`, `unclassified=count(res=3)`. -/
def channelGroupCounts (matching : List Conversation) (ch : String) :
    ChannelResolutionCount :=
  let group := matching.filter (fun c => c.channelUuid == some ch)
  { channelUuid := ch
    resolved := (group.filter (fun c => c.resolution == RESOLVED)).length
    unresolved := (group.filter (fun c => c.resolution == UNRESOLVED)).length
    hasChatsRooms := (group.filter (fun c =>
      c.resolution == HAS_CHAT_ROOM || c.hasChatsRoom)).length
    unclassified := (group.filter (fun c => c.resolution == UNCLASSIFIED)).length }

/-- services/resolution_counter.py
`DatabaseResolutionCounter.get_all_channels_counts`: filter the project's
conversations of the target date with a channel, group by `channel_uuid`,
and annotate each group with the four counts. -/
def getAllChannelsCounts (s : SystemState) (projectUuid : String) (targetDate : Nat) :
    List ChannelResolutionCount :=
  let matching := s.conversations.filter (matchesBillingFilter projectUuid targetDate)
  let channels := (matching.filterMap (·.channelUuid)).dedup
  channels.map (channelGroupCounts matching)

/-- clients/dtos.py `ResolutionCountDTO`. -/
structure ResolutionCountDTO where
  resolved : Nat := 0
  unresolved : Nat := 0
  hasChatsRooms : Nat := 0
  unclassified : Nat := 0
  deriving DecidableEq, Repr

/-- clients/dtos.py `ChannelConversationDTO`: one body element of the
billing POST. -/
structure ChannelConversationDTO where
  channelUuid : String
  date : Nat
  resolutionCount : ResolutionCountDTO
  deriving DecidableEq, Repr

/-- clients/dtos.py `SendConversationsRequestDTO.add_channel`. -/
def addChannel (dto : List ChannelConversationDTO) (channelUuid : String) (date : Nat)
    (resolved unresolved hasChatsRooms unclassified : Nat) :
    List ChannelConversationDTO :=
  dto ++ [{ channelUuid := channelUuid, date := date,
            resolutionCount := { resolved := resolved, unresolved := unresolved,
                                 hasChatsRooms := hasChatsRooms,
                                 unclassified := unclassified } }]

/-- tasks.py `_build_request_dto`: one `add_channel` per counted channel,
all carrying the billing date. -/
def buildRequestDTO (channelCounts : List ChannelResolutionCount) (billingDate : Nat) :
    List ChannelConversationDTO :=
  channelCounts.foldl (fun dto counts =>
    addChannel dto counts.channelUuid billingDate counts.resolved counts.unresolved
      counts.hasChatsRooms counts.unclassified) []

/-! Helper lemmas about the embedded operations. -/

/-- `get_or_create` of a project does not touch the conversation table. -/
theorem getOrCreateProject_conversations (s : SystemState) (p : String) :
    (getOrCreateProject s p).conversations = s.conversations := by
  unfold getOrCreateProject
  split <;> rfl

/-- The migration writes the archive row only: the hot store is untouched. -/
theorem migrate_hotMessages (s : SystemState) (conv : Conversation) :
    (migrateConversationMessagesToPostgres s conv).hotMessages = s.hotMessages := by
  simp only [migrateConversationMessagesToPostgres, archiveUpsert]
  split
  · rfl
  · split <;> rfl

/-- The migration writes the archive row only: the conversation table is
untouched. -/
theorem migrate_conversations (s : SystemState) (conv : Conversation) :
    (migrateConversationMessagesToPostgres s conv).conversations = s.conversations := by
  simp only [migrateConversationMessagesToPostgres, archiveUpsert]
  split
  · rfl
  · split <;> rfl

/-- The close side effects (migration, classification enqueue) never touch
the conversation table, whichever way they fail. -/
theorem closeSideEffects_conversations (mode : CloseSideEffectMode) (s : SystemState)
    (c : Conversation) :
    (closeSideEffects mode s c).conversations = s.conversations := by
  cases mode with
  | ok => simp only [closeSideEffects]; rw [migrate_conversations]
  | migrationRaises => rfl
  | classificationRaises => simp only [closeSideEffects]; rw [migrate_conversations]

/-! Claim C4. -/

/-- C4 failing input: a closed conversation whose hot-store partition holds
one item. -/
def c4Conversation : Conversation :=
  { uuid := 7, createdAt := 100, contactUrn := "u", projectUuid := "p",
    externalId := none, startDate := none, endDate := none, hasChatsRoom := true,
    contactName := "", channelUuid := some "ch", nps := none, csat := none,
    resolution := HAS_CHAT_ROOM }

/-- C4 failing input: the hot-store item under the composite key
`p#u#ch`. -/
def c4HotItem : HotMessage :=
  { conversationKey := "p#u#ch", messageTimestamp := "2024-01-01T12:00:00#0",
    projectUuid := "p", contactUrn := "u", channelUuid := some "ch",
    messageId := "0", messageText := "Hi", sourceType := "incoming",
    createdAt := "2024-01-01T12:00:00", resolutionStatus := 2, expiresOn := 1 }

/-- An empty system with a fixed clock, base of the concrete scenarios. -/
def emptySystem : SystemState :=
  { projects := [], conversations := [], hotMessages := [], archives := [],
    classificationQueue := [], dataLakeQueue := [], nextUuid := 0, now := 1700000000 }

/-- C4 failing input: the pre-migration state. -/
def c4State : SystemState :=
  { emptySystem with conversations := [c4Conversation], hotMessages := [c4HotItem] }

/-- **C4** (code bug): the claim — after `Migrate` runs to completion the
hot-store partition of the conversation is empty — is false of the code:
`migrate_conversation_messages_to_postgres` never calls
`delete_messages_by_conversation` (which has no caller at all), so the hot
store is unchanged by every migration; at the failing input the partition
still holds its item afterwards. -/
theorem c4_migration_leaves_hot_store_untouched :
    (∀ (s : SystemState) (conv : Conversation),
      (migrateConversationMessagesToPostgres s conv).hotMessages = s.hotMessages) ∧
    (migrateConversationMessagesToPostgres c4State c4Conversation).hotMessages = [c4HotItem] := by
  refine ⟨fun s conv => migrate_hotMessages s conv, ?_⟩
  rw [migrate_hotMessages]
  rfl

/-! Claim C6. -/

/-- **C6** (confirmed): a hot-store write happens on a message event if and
only if the owning conversation's resolution is `IN_PROGRESS` at save
time; with any other resolution the save is a no-op, for both
`save_received_message` and `save_sent_message`. -/
theorem c6_hot_write_iff_in_progress (s : SystemState) (conv : Conversation)
    (ev : MessageEvent) :
    (((saveReceivedMessage s conv ev).hotMessages.length = s.hotMessages.length + 1 ↔
        conv.resolution = IN_PROGRESS) ∧
      (conv.resolution ≠ IN_PROGRESS → saveReceivedMessage s conv ev = s)) ∧
    (((saveSentMessage s conv ev).hotMessages.length = s.hotMessages.length + 1 ↔
        conv.resolution = IN_PROGRESS) ∧
      (conv.resolution ≠ IN_PROGRESS → saveSentMessage s conv ev = s)) := by
  by_cases h : conv.resolution = IN_PROGRESS
  · simp [saveReceivedMessage, saveSentMessage, isConversationInProgress, h, storageMessage]
  · simp [saveReceivedMessage, saveSentMessage, isConversationInProgress, h]

/-! Claims C1 and C2: the consumer loop. -/

/-- The consumer before any message was processed. -/
def initialConsumer : ConsumerState :=
  { sys := emptySystem, processedCorrelationIds := [], processedCount := 0,
    duplicateCount := 0, errorCount := 0, deletedHandles := [] }

/-- A well-formed `message.received` event body. -/
def baseEventData : EventData :=
  { correlationId := some "corr-1", eventType := some "message.received",
    projectUuid := "proj-1", contactUrn := "whatsapp:+1", channelUuid := some "chan-1",
    messageText := "Hi", messageSource := none, contactName := none,
    messageCreatedAt := "2024-01-01T12:00:00Z", key := none, value := none,
    externalId := none, startDate := none, endDate := none, hasChatsRoom := false,
    nameAttr := none }

/-- C1 concrete input: a raw message that decodes fine but whose handler
raises a transient exception. -/
def c1Msg : RawMessage :=
  { messageId := "m-1", receiptHandle := "rh-1", body := some baseEventData }

/-- **C1 counterexample**: the claim says a raw message whose processing
raises a non-decode exception is not deleted; but the loop's
`failed_messages` pass (sqs_consumer.py lines 250-258) deletes it, so its
receipt handle ends up among the issued deletions. -/
theorem c1_counterexample_raised_message_deleted :
    c1Msg.receiptHandle ∈
      (processBatch (fun _ => true) initialConsumer [c1Msg]).deletedHandles := by
  decide

/-- **C1** (amended): a decoded, not-yet-seen raw message whose handling
raises an unhandled (non-decode) exception IS deleted from the queue by
the consumer loop — individually, after the batch delete of the successes
— rather than being left for redelivery; decode failures are likewise
deleted (as poison pills, inside `_process_message` itself). -/
theorem c1_amended_raised_message_deleted (failOracle : RawMessage → Bool)
    (cs : ConsumerState) (msg : RawMessage) (d : EventData)
    (hbody : msg.body = some d)
    (hfresh : d.correlationId ∉ cs.processedCorrelationIds)
    (hfail : failOracle msg = true) :
    msg.receiptHandle ∈ (processBatch failOracle cs [msg]).deletedHandles := by
  simp [processBatch, processBatchStep, processMessage, hbody, hfresh, hfail]

/-- C1 witness: the amended theorem applied at the concrete raising
message. -/
theorem c1_amended_witness :
    c1Msg.body = some baseEventData ∧
    baseEventData.correlationId ∉ initialConsumer.processedCorrelationIds ∧
    (fun (_ : RawMessage) => true) c1Msg = true ∧
    c1Msg.receiptHandle ∈
      (processBatch (fun _ => true) initialConsumer [c1Msg]).deletedHandles :=
  ⟨rfl, List.not_mem_nil _, rfl,
    c1_amended_raised_message_deleted (fun _ => true) initialConsumer c1Msg baseEventData
      rfl (List.not_mem_nil _) rfl⟩

/-- C2 failing input: a decoded `conversation.window` body. -/
def c2WindowEventData : EventData :=
  { correlationId := some "corr-2", eventType := some "conversation.window",
    projectUuid := "proj-1", contactUrn := "whatsapp:+1", channelUuid := some "chan-1",
    messageText := "", messageSource := none, contactName := none,
    messageCreatedAt := "", key := none, value := none,
    externalId := none, startDate := none, endDate := none, hasChatsRoom := true,
    nameAttr := none }

/-- C2 failing input: the raw message around it. -/
def c2Msg : RawMessage :=
  { messageId := "m-2", receiptHandle := "rh-2", body := some c2WindowEventData }

/-- C2: the in-progress conversation the window event should close. -/
def c2Conversation : Conversation :=
  { uuid := 5, createdAt := 50, contactUrn := "whatsapp:+1",
    projectUuid := "proj-1", externalId := none, startDate := none, endDate := none,
    hasChatsRoom := false, contactName := "", channelUuid := some "chan-1",
    nps := none, csat := none, resolution := IN_PROGRESS }

/-- C2: a state holding the in-progress conversation the window event
should close. -/
def c2State : SystemState :=
  { emptySystem with projects := ["proj-1"], conversations := [c2Conversation] }

/-- **C2** (code bug): the consumer never routes `conversation.window` —
it falls into the `Unknown event type` branch (sqs_consumer.py lines
576-584), the message is acknowledged and the system state is untouched,
so `ApplyWindow` is never invoked from the queue, although the window
service itself does close the conversation and enqueue classification when
called (and the repository's own test_consumer_routing.py expects the
routing to dispatch it). -/
theorem c2_conversation_window_not_routed :
    routeEvent (some "conversation.window") = RouteTarget.unknownType ∧
    (processMessage (fun _ => false) { initialConsumer with sys := c2State } c2Msg).1 =
      ProcessResult.returnedHandle "rh-2" ∧
    (processMessage (fun _ => false) { initialConsumer with sys := c2State } c2Msg).2.sys =
      c2State ∧
    (processConversationWindow CloseSideEffectMode.ok c2State c2WindowEventData).2.classificationQueue = [5] := by
  refine ⟨by decide, by decide, by decide, by decide⟩

/-! Claim C7: missing channel_uuid. -/

/-- The blank-channel guard of services/conversation_service.py: `None`
and `""` both yield `(None, unchanged state)`. -/
theorem ensureConversationExists_blank (s : SystemState) (p urn nm : String)
    (ch : Option String) (hch : ch = none ∨ ch = some "") :
    ensureConversationExists s p urn nm ch = (none, s) := by
  rcases hch with rfl | rfl
  · rfl
  · simp [ensureConversationExists]

/-- **C7** (confirmed): with an empty or null `channel_uuid`, EnsureActive
returns `None` and nothing changes — no project upsert, no conversation,
no hot-store write — and the raw message is still acknowledged (the
handler completes, the consumer returns the receipt handle and the batch
loop deletes it). -/
theorem c7_blank_channel_no_state_change (cs : ConsumerState) (msg : RawMessage)
    (d : EventData) (mode : CloseSideEffectMode)
    (hbody : msg.body = some d)
    (hch : d.channelUuid = none ∨ d.channelUuid = some "")
    (hfresh : d.correlationId ∉ cs.processedCorrelationIds) :
    (∀ nm, ensureConversationExists cs.sys d.projectUuid d.contactUrn nm d.channelUuid =
      (none, cs.sys)) ∧
    processMessageReceived mode cs.sys d = (HandlerOutcome.completed, cs.sys) ∧
    processMessageSent mode cs.sys d = (HandlerOutcome.completed, cs.sys) ∧
    (processMessage (fun _ => false) cs msg).1 =
      ProcessResult.returnedHandle msg.receiptHandle ∧
    (processMessage (fun _ => false) cs msg).2.sys = cs.sys ∧
    msg.receiptHandle ∈ (processBatch (fun _ => false) cs [msg]).deletedHandles := by
  have hens : ∀ (s2 : SystemState) (nm : String),
      ensureConversationExists s2 d.projectUuid d.contactUrn nm d.channelUuid = (none, s2) :=
    fun s2 nm => ensureConversationExists_blank s2 d.projectUuid d.contactUrn nm d.channelUuid hch
  have hrec : ∀ mo, processMessageReceived mo cs.sys d = (HandlerOutcome.completed, cs.sys) := by
    intro mo
    simp [processMessageReceived, messageEventFromSqs, hens]
  have hsent : ∀ mo, processMessageSent mo cs.sys d = (HandlerOutcome.completed, cs.sys) := by
    intro mo
    simp [processMessageSent, messageEventFromSqs, hens]
  have hsys : (processMessage (fun _ => false) cs msg).2.sys = cs.sys := by
    cases hrt : routeEvent d.eventType <;>
      simp [processMessage, hbody, hfresh, hrt, hrec, hsent]
  refine ⟨fun nm => hens cs.sys nm, hrec mode, hsent mode, ?_, hsys, ?_⟩
  · simp [processMessage, hbody, hfresh]
  · simp [processBatch, processBatchStep, processMessage, hbody, hfresh]

/-- C7 concrete input: a `message.received` body with a null channel. -/
def c7EventData : EventData :=
  { correlationId := some "corr-7", eventType := some "message.received",
    projectUuid := "proj-7", contactUrn := "whatsapp:+7", channelUuid := none,
    messageText := "Hi", messageSource := none, contactName := none,
    messageCreatedAt := "2024-01-01T12:00:00Z", key := none, value := none,
    externalId := none, startDate := none, endDate := none, hasChatsRoom := false,
    nameAttr := none }

/-- C7 concrete input: the raw message around it. -/
def c7Msg : RawMessage :=
  { messageId := "m-7", receiptHandle := "rh-7", body := some c7EventData }

/-- C7 witness: the theorem applied at the concrete null-channel message. -/
theorem c7_blank_channel_witness :
    c7Msg.body = some c7EventData ∧
    (c7EventData.channelUuid = none ∨ c7EventData.channelUuid = some "") ∧
    c7EventData.correlationId ∉ initialConsumer.processedCorrelationIds ∧
    ((∀ nm, ensureConversationExists initialConsumer.sys c7EventData.projectUuid
        c7EventData.contactUrn nm c7EventData.channelUuid = (none, initialConsumer.sys)) ∧
      processMessageReceived CloseSideEffectMode.ok initialConsumer.sys c7EventData =
        (HandlerOutcome.completed, initialConsumer.sys) ∧
      processMessageSent CloseSideEffectMode.ok initialConsumer.sys c7EventData =
        (HandlerOutcome.completed, initialConsumer.sys) ∧
      (processMessage (fun _ => false) initialConsumer c7Msg).1 =
        ProcessResult.returnedHandle c7Msg.receiptHandle ∧
      (processMessage (fun _ => false) initialConsumer c7Msg).2.sys = initialConsumer.sys ∧
      c7Msg.receiptHandle ∈
        (processBatch (fun _ => false) initialConsumer [c7Msg]).deletedHandles) :=
  ⟨rfl, Or.inl rfl, List.not_mem_nil _,
    c7_blank_channel_no_state_change initialConsumer c7Msg c7EventData
      CloseSideEffectMode.ok rfl (Or.inl rfl) (List.not_mem_nil _)⟩

/-! Claim C8: re-delivery idempotence. -/

/-- **C8** (confirmed): a raw message that decodes successfully is
idempotent under redelivery — the second `_process_message` pass hits the
correlation-id duplicate check (sqs_consumer.py lines 509-518) before any
effect, so the system state (hot store, conversations, projects, archives,
queues) after processing it twice equals the state after processing it
once, and in particular no second hot-store item is written. -/
theorem c8_redelivery_is_idempotent (cs : ConsumerState) (msg : RawMessage)
    (d : EventData) (hbody : msg.body = some d) :
    (processMessage (fun _ => false) (processMessage (fun _ => false) cs msg).2 msg).2.sys =
      (processMessage (fun _ => false) cs msg).2.sys := by
  by_cases hdup : d.correlationId ∈ cs.processedCorrelationIds
  · simp [processMessage, hbody, hdup]
  · have hcontains : d.correlationId ∈ cs.processedCorrelationIds ++ [d.correlationId] := by
      simp
    simp [processMessage, hbody, hdup, hcontains]

/-- C8 concrete input: a fresh `message.received` body. -/
def c8EventData : EventData :=
  { correlationId := some "corr-8", eventType := some "message.received",
    projectUuid := "proj-8", contactUrn := "whatsapp:+8", channelUuid := some "chan-8",
    messageText := "Hello", messageSource := none, contactName := none,
    messageCreatedAt := "2024-01-01T12:00:00Z", key := none, value := none,
    externalId := none, startDate := none, endDate := none, hasChatsRoom := false,
    nameAttr := none }

/-- C8 concrete input: the raw message around it. -/
def c8Msg : RawMessage :=
  { messageId := "m-8", receiptHandle := "rh-8", body := some c8EventData }

/-- C8 witness: the theorem applied at the concrete message delivered
twice to a fresh consumer. -/
theorem c8_redelivery_witness :
    c8Msg.body = some c8EventData ∧
    (processMessage (fun _ => false)
        (processMessage (fun _ => false) initialConsumer c8Msg).2 c8Msg).2.sys =
      (processMessage (fun _ => false) initialConsumer c8Msg).2.sys :=
  ⟨rfl, c8_redelivery_is_idempotent initialConsumer c8Msg c8EventData rfl⟩

/-! Claim C3: single active conversation per triple. -/

/-- The running latest element of the `-created_at` selection stays in the
candidate list. -/
theorem foldl_latest_mem (c : Conversation) (l : List Conversation) :
    l.foldl (fun best x => if best.createdAt < x.createdAt then x else best) c ∈ c :: l := by
  induction l generalizing c with
  | nil => simp
  | cons x xs ih =>
    rw [List.foldl_cons]
    rcases List.mem_cons.mp (ih (if c.createdAt < x.createdAt then x else c)) with h1 | h1
    · rw [h1]
      split
      · exact List.mem_cons_of_mem _ (List.mem_cons_self _ _)
      · exact List.mem_cons_self _ _
    · exact List.mem_cons_of_mem _ (List.mem_cons_of_mem _ h1)

/-- The running latest element of the `-created_at` selection dominates
the start value and every candidate. -/
theorem foldl_latest_ge (c : Conversation) (l : List Conversation) :
    c.createdAt ≤
      (l.foldl (fun best x => if best.createdAt < x.createdAt then x else best) c).createdAt ∧
    ∀ y ∈ l, y.createdAt ≤
      (l.foldl (fun best x => if best.createdAt < x.createdAt then x else best) c).createdAt := by
  induction l generalizing c with
  | nil => exact ⟨Nat.le_refl _, by simp⟩
  | cons x xs ih =>
    rw [List.foldl_cons]
    obtain ⟨h1, h2⟩ := ih (if c.createdAt < x.createdAt then x else c)
    constructor
    · refine Nat.le_trans ?_ h1
      split <;> omega
    · intro y hy
      rcases List.mem_cons.mp hy with rfl | hy2
      · refine Nat.le_trans ?_ h1
        split <;> omega
      · exact h2 y hy2

/-- A selected `order_by("-created_at").first()` row is in the queryset. -/
theorem mostRecentCreated_mem {l : List Conversation} {m : Conversation}
    (h : mostRecentCreated l = some m) : m ∈ l := by
  cases l with
  | nil => cases h
  | cons c cs =>
    simp only [mostRecentCreated, Option.some.injEq] at h
    exact h ▸ foldl_latest_mem c cs

/-- A selected `order_by("-created_at").first()` row has maximal
`created_at` in the queryset. -/
theorem mostRecentCreated_ge {l : List Conversation} {m : Conversation}
    (h : mostRecentCreated l = some m) : ∀ c ∈ l, c.createdAt ≤ m.createdAt := by
  cases l with
  | nil => intro c hc; cases hc
  | cons c0 cs =>
    simp only [mostRecentCreated, Option.some.injEq] at h
    intro c hc
    rcases List.mem_cons.mp hc with rfl | hc2
    · exact h ▸ (foldl_latest_ge c cs).1
    · exact h ▸ (foldl_latest_ge c0 cs).2 c hc2

/-- `first()` yields nothing exactly on the empty queryset. -/
theorem mostRecentCreated_eq_none {l : List Conversation} :
    mostRecentCreated l = none ↔ l = [] := by
  cases l <;> simp [mostRecentCreated]

/-- A demoted (UNCLASSIFIED) conversation no longer matches the active
(`resolution = IN_PROGRESS`) filter. -/
theorem matchesActiveTriple_demote (p urn ch : String) (c : Conversation) :
    matchesActiveTriple p urn ch { c with resolution := UNCLASSIFIED } = false := by
  simp [matchesActiveTriple, UNCLASSIFIED, IN_PROGRESS]

/-- After the bulk demote, no conversation with a uuid other than the
survivor's still matches the active filter. -/
theorem demote_filter_eq_nil (p urn ch : String) (keep : Conversation)
    (xs : List Conversation) (h : ∀ y ∈ xs, y.uuid ≠ keep.uuid) :
    (xs.map (fun c => if matchesActiveTriple p urn ch c && !(c.uuid == keep.uuid)
      then { c with resolution := UNCLASSIFIED } else c)).filter
      (matchesActiveTriple p urn ch) = [] := by
  induction xs with
  | nil => rfl
  | cons y ys ih =>
    have hy : (y.uuid == keep.uuid) = false :=
      beq_eq_false_iff_ne.mpr (h y (List.mem_cons_self _ _))
    have ih2 := ih (fun z hz => h z (List.mem_cons_of_mem _ hz))
    by_cases hP : matchesActiveTriple p urn ch y = true
    · simp only [List.map_cons, List.filter_cons, hP, hy, Bool.not_false, Bool.and_true,
        if_true, matchesActiveTriple_demote, Bool.false_eq_true, if_false]
      exact ih2
    · have hPf : matchesActiveTriple p urn ch y = false := by
        cases hq : matchesActiveTriple p urn ch y
        · rfl
        · exact absurd hq hP
      simp only [List.map_cons, List.filter_cons, hPf, hy, Bool.not_false, Bool.and_true,
        Bool.false_and, Bool.false_eq_true, if_false]
      exact ih2

/-- After the bulk demote, exactly one conversation (the survivor) matches
the active filter. -/
theorem demote_filter_length (p urn ch : String) (keep : Conversation)
    (l : List Conversation)
    (hnodup : (l.map (fun c => c.uuid)).Nodup)
    (hkeep : keep ∈ l) (hP : matchesActiveTriple p urn ch keep = true) :
    ((l.map (fun c => if matchesActiveTriple p urn ch c && !(c.uuid == keep.uuid)
      then { c with resolution := UNCLASSIFIED } else c)).filter
      (matchesActiveTriple p urn ch)).length = 1 := by
  induction l with
  | nil => cases hkeep
  | cons x xs ih =>
    rw [List.map_cons] at hnodup
    have hnd1 : x.uuid ∉ xs.map (fun c => c.uuid) := (List.nodup_cons.mp hnodup).1
    have hnd2 : (xs.map (fun c => c.uuid)).Nodup := (List.nodup_cons.mp hnodup).2
    by_cases hx : x.uuid = keep.uuid
    · have hxk : x = keep := by
        rcases List.mem_cons.mp hkeep with h1 | h1
        · exact h1.symm
        · exact absurd (hx ▸ List.mem_map_of_mem (fun c => c.uuid) h1) hnd1
      have hbeq : (x.uuid == keep.uuid) = true := by simp [hx]
      have hPx : matchesActiveTriple p urn ch x = true := by rw [hxk]; exact hP
      have htail : ∀ y ∈ xs, y.uuid ≠ keep.uuid := by
        intro y hy hEq
        apply hnd1
        rw [hx, ← hEq]
        exact List.mem_map_of_mem (fun c => c.uuid) hy
      rw [List.map_cons, List.filter_cons]
      simp only [hbeq, Bool.not_true, Bool.and_false, Bool.false_eq_true, if_false, hPx,
        if_true]
      rw [demote_filter_eq_nil p urn ch keep xs htail]
      rfl
    · have hkeep2 : keep ∈ xs := by
        rcases List.mem_cons.mp hkeep with h1 | h1
        · exact absurd (by rw [h1]) hx
        · exact h1
      have hbeq : (x.uuid == keep.uuid) = false := beq_eq_false_iff_ne.mpr hx
      have ihr := ih hnd2 hkeep2
      rw [List.map_cons, List.filter_cons]
      by_cases hPx : matchesActiveTriple p urn ch x = true
      · simp only [hbeq, Bool.not_false, Bool.and_true, hPx, if_true,
          matchesActiveTriple_demote, Bool.false_eq_true, if_false]
        exact ihr
      · have hPxf : matchesActiveTriple p urn ch x = false := by
          cases hq : matchesActiveTriple p urn ch x
          · rfl
          · exact absurd hq hPx
        simp only [hbeq, Bool.not_false, Bool.and_true, hPxf, Bool.false_eq_true, if_false]
        exact ihr

/-- **C3** (confirmed): after `EnsureActive` runs on a triple (with a
non-blank channel and primary-key-unique conversation rows), exactly one
conversation of that triple is `IN_PROGRESS`; and when it found more than
one, the returned survivor is a most recent one of the matched set, stays
`IN_PROGRESS`, and every other matched conversation is updated to
`UNCLASSIFIED`. -/
theorem c3_single_active_conversation (s : SystemState) (p urn nm ch : String)
    (hch : ch ≠ "")
    (hnodup : (s.conversations.map (fun c => c.uuid)).Nodup) :
    (activeMatches (ensureConversationExists s p urn nm (some ch)).2 p urn ch).length = 1 ∧
    (∀ keep, (ensureConversationExists s p urn nm (some ch)).1 = some keep →
      2 ≤ (activeMatches s p urn ch).length →
      keep ∈ activeMatches s p urn ch ∧
      keep.resolution = IN_PROGRESS ∧
      (∀ c ∈ activeMatches s p urn ch, c.createdAt ≤ keep.createdAt) ∧
      (∀ c ∈ activeMatches s p urn ch, c.uuid ≠ keep.uuid →
        ∃ c2 ∈ (ensureConversationExists s p urn nm (some ch)).2.conversations,
          c2.uuid = c.uuid ∧ c2.resolution = UNCLASSIFIED)) := by
  have hch2 : (ch == "") = false := beq_eq_false_iff_ne.mpr hch
  have hens : ensureConversationExists s p urn nm (some ch) =
      ensureConversationExistsMain s p urn nm ch := by
    simp [ensureConversationExists, hch2]
  have hproj : activeMatches (getOrCreateProject s p) p urn ch = activeMatches s p urn ch := by
    unfold activeMatches
    rw [getOrCreateProject_conversations]
  rw [hens]
  rcases hmr : mostRecentCreated (activeMatches s p urn ch) with _ | keep
  · -- empty queryset: a fresh conversation is created
    have hempty : activeMatches s p urn ch = [] := mostRecentCreated_eq_none.mp hmr
    have hmain : ensureConversationExistsMain s p urn nm ch =
        (some (createConversation (getOrCreateProject s p) p urn nm ch).1,
         (createConversation (getOrCreateProject s p) p urn nm ch).2) := by
      simp only [ensureConversationExistsMain, hproj, hmr]
    rw [hmain]
    constructor
    · unfold activeMatches at hempty ⊢
      simp only [createConversation, getOrCreateProject_conversations]
      rw [List.filter_append, hempty]
      simp [matchesActiveTriple, IN_PROGRESS]
    · intro keep2 _ hge
      rw [hempty] at hge
      exact absurd hge (by simp)
  · -- nonempty queryset
    have hkeepmem : keep ∈ activeMatches s p urn ch := mostRecentCreated_mem hmr
    have hkeepP : matchesActiveTriple p urn ch keep = true :=
      (List.mem_filter.mp hkeepmem).2
    have hkeepconv : keep ∈ s.conversations := (List.mem_filter.mp hkeepmem).1
    by_cases hlen : 1 < (activeMatches s p urn ch).length
    · -- more than one match: demote the rest
      have hmain : ensureConversationExistsMain s p urn nm ch =
          (some keep,
           { getOrCreateProject s p with
              conversations := (getOrCreateProject s p).conversations.map (fun c =>
                if matchesActiveTriple p urn ch c && !(c.uuid == keep.uuid)
                then { c with resolution := UNCLASSIFIED } else c) }) := by
        simp only [ensureConversationExistsMain, hproj, hmr, if_pos hlen]
      rw [hmain]
      constructor
      · unfold activeMatches
        simp only [getOrCreateProject_conversations]
        exact demote_filter_length p urn ch keep s.conversations hnodup hkeepconv hkeepP
      · intro keep2 hk2 _
        have hk2e : keep2 = keep := by
          simpa using hk2.symm
        rw [hk2e]
        refine ⟨hkeepmem, ?_, ?_, ?_⟩
        · have hkp := hkeepP
          simp only [matchesActiveTriple, Bool.and_eq_true, beq_iff_eq] at hkp
          exact hkp.2
        · exact fun c hc => mostRecentCreated_ge hmr c hc
        · intro c hc hne
          have hcconv : c ∈ s.conversations := (List.mem_filter.mp hc).1
          have hcP : matchesActiveTriple p urn ch c = true := (List.mem_filter.mp hc).2
          have hcbeq : (c.uuid == keep.uuid) = false := beq_eq_false_iff_ne.mpr hne
          refine ⟨{ c with resolution := UNCLASSIFIED }, ?_, rfl, rfl⟩
          simp only [getOrCreateProject_conversations]
          have himg : (fun x => if matchesActiveTriple p urn ch x && !(x.uuid == keep.uuid)
              then { x with resolution := UNCLASSIFIED } else x) c =
              { c with resolution := UNCLASSIFIED } := by
            simp [hcP, hcbeq]
          exact himg ▸ List.mem_map_of_mem _ hcconv
    · -- exactly one match: state untouched
      have hne : activeMatches s p urn ch ≠ [] := by
        intro h0
        rw [h0] at hmr
        cases hmr
      have hlen1 : (activeMatches s p urn ch).length = 1 := by
        have hpos : 0 < (activeMatches s p urn ch).length := List.length_pos.mpr hne
        omega
      have hmain : ensureConversationExistsMain s p urn nm ch =
          (some keep, getOrCreateProject s p) := by
        simp only [ensureConversationExistsMain, hproj, hmr, if_neg hlen]
      rw [hmain]
      constructor
      · rw [hproj]
        exact hlen1
      · intro keep2 _ hge
        rw [hlen1] at hge
        exact absurd hge (by omega)

/-- C3 witness input: the older of two duplicate active conversations. -/
def c3ConvOld : Conversation :=
  { uuid := 1, createdAt := 10, contactUrn := "u3", projectUuid := "p3",
    externalId := none, startDate := none, endDate := none, hasChatsRoom := false,
    contactName := "", channelUuid := some "ch3", nps := none, csat := none,
    resolution := IN_PROGRESS }

/-- C3 witness input: the newer duplicate active conversation. -/
def c3ConvNew : Conversation :=
  { uuid := 2, createdAt := 20, contactUrn := "u3", projectUuid := "p3",
    externalId := none, startDate := none, endDate := none, hasChatsRoom := false,
    contactName := "", channelUuid := some "ch3", nps := none, csat := none,
    resolution := IN_PROGRESS }

/-- C3 witness input: a state with two active conversations on one
triple. -/
def c3State : SystemState :=
  { emptySystem with projects := ["p3"], conversations := [c3ConvOld, c3ConvNew] }

/-- C3 witness: the theorem applied to the two-duplicates state. -/
theorem c3_single_active_witness :
    "ch3" ≠ "" ∧
    (c3State.conversations.map (fun c => c.uuid)).Nodup ∧
    ((activeMatches (ensureConversationExists c3State "p3" "u3" "nm" (some "ch3")).2
        "p3" "u3" "ch3").length = 1 ∧
      (∀ keep, (ensureConversationExists c3State "p3" "u3" "nm" (some "ch3")).1 = some keep →
        2 ≤ (activeMatches c3State "p3" "u3" "ch3").length →
        keep ∈ activeMatches c3State "p3" "u3" "ch3" ∧
        keep.resolution = IN_PROGRESS ∧
        (∀ c ∈ activeMatches c3State "p3" "u3" "ch3", c.createdAt ≤ keep.createdAt) ∧
        (∀ c ∈ activeMatches c3State "p3" "u3" "ch3", c.uuid ≠ keep.uuid →
          ∃ c2 ∈ (ensureConversationExists c3State "p3" "u3" "nm" (some "ch3")).2.conversations,
            c2.uuid = c.uuid ∧ c2.resolution = UNCLASSIFIED))) :=
  ⟨by decide, by decide,
    c3_single_active_conversation c3State "p3" "u3" "nm" "ch3" (by decide) (by decide)⟩

/-! Claim C5: archive length vs hot-store partition size. -/

/-- Inserting into the descending order adds one element. -/
theorem insertByTimestampDesc_length (m : HotMessage) (l : List HotMessage) :
    (insertByTimestampDesc m l).length = l.length + 1 := by
  induction l with
  | nil => rfl
  | cons x xs ih =>
    rw [insertByTimestampDesc]
    split
    · simp
    · simp [ih]

/-- The descending sort is a permutation in length. -/
theorem sortByTimestampDesc_length (l : List HotMessage) :
    (sortByTimestampDesc l).length = l.length := by
  induction l with
  | nil => rfl
  | cons x xs ih =>
    unfold sortByTimestampDesc at ih ⊢
    rw [List.foldr_cons, insertByTimestampDesc_length, ih]
    rfl

/-- After replacing the matching archive rows, the first row with the key
is the fresh one. -/
theorem find?_archive_replace (l : List (Nat × List FormattedMessage)) (u : Nat)
    (msgs : List FormattedMessage) (h : l.any (fun e => e.fst == u) = true) :
    ((l.map (fun e => if e.fst == u then (u, msgs) else e)).find?
      (fun e => e.fst == u)) = some (u, msgs) := by
  induction l with
  | nil => simp at h
  | cons x xs ih =>
    by_cases hx : (x.fst == u) = true
    · simp only [List.map_cons, hx, if_true]
      rw [List.find?_cons_of_pos]
      simp
    · simp only [List.any_cons, hx, Bool.false_or] at h
      simp only [List.map_cons, hx, if_false, Bool.false_eq_true]
      rw [List.find?_cons_of_neg]
      · exact ih h
      · simp [hx]

/-- Appending the fresh archive row after no row matched makes it the
first match. -/
theorem find?_archive_append (l : List (Nat × List FormattedMessage)) (u : Nat)
    (msgs : List FormattedMessage) (h : l.any (fun e => e.fst == u) = false) :
    (l ++ [(u, msgs)]).find? (fun e => e.fst == u) = some (u, msgs) := by
  induction l with
  | nil => simp
  | cons x xs ih =>
    simp only [List.any_cons, Bool.or_eq_false_iff] at h
    rw [List.cons_append, List.find?_cons_of_neg]
    · exact ih h.2
    · simp [h.1]

/-- After `update_or_create`, looking the conversation up yields exactly
the stored list. -/
theorem archiveLookup_archiveUpsert (s : SystemState) (u : Nat)
    (msgs : List FormattedMessage) :
    archiveLookup (archiveUpsert s u msgs) u = some msgs := by
  unfold archiveLookup archiveUpsert
  split
  · rename_i h
    rw [find?_archive_replace s.archives u msgs h]
    rfl
  · rename_i h
    rw [find?_archive_append s.archives u msgs (by
      cases hq : s.archives.any (fun e => e.fst == u)
      · rfl
      · exact absurd hq h)]
    rfl

/-- The archived list written by a migration over a nonempty partition has
length `min 1000 (partition size)`: the code reads a single
`get_messages` page of limit 1000 and ignores the continuation cursor. -/
theorem migrate_archive_length (s : SystemState) (conv : Conversation)
    (hne : (s.hotMessages.filter (fun m => m.conversationKey ==
        conversationKeyOf conv.projectUuid conv.contactUrn conv.channelUuid)).length ≠ 0) :
    (archiveLookup (migrateConversationMessagesToPostgres s conv) conv.uuid).map
        List.length =
      some (min 1000 (s.hotMessages.filter (fun m => m.conversationKey ==
        conversationKeyOf conv.projectUuid conv.contactUrn conv.channelUuid)).length) := by
  have hmsg : (getMessagesFromDynamo s conv.projectUuid conv.contactUrn
      conv.channelUuid).length =
      min 1000 (s.hotMessages.filter (fun m => m.conversationKey ==
        conversationKeyOf conv.projectUuid conv.contactUrn conv.channelUuid)).length := by
    unfold getMessagesFromDynamo getMessages queryPartition
    rw [List.length_map, List.length_take, sortByTimestampDesc_length]
  have hlen0 : (getMessagesFromDynamo s conv.projectUuid conv.contactUrn
      conv.channelUuid).length ≠ 0 := by
    rw [hmsg]
    intro h0
    rcases Nat.min_eq_zero_iff.mp h0 with h1 | h1
    · omega
    · exact hne h1
  have hnonempty : (getMessagesFromDynamo s conv.projectUuid conv.contactUrn
      conv.channelUuid).isEmpty = false := by
    cases hq : getMessagesFromDynamo s conv.projectUuid conv.contactUrn conv.channelUuid with
    | nil => exact absurd (by rw [hq]; rfl) hlen0
    | cons a as => rfl
  simp only [migrateConversationMessagesToPostgres]
  rw [hnonempty]
  simp only [Bool.false_eq_true, if_false]
  rw [archiveLookup_archiveUpsert]
  simp only [Option.map_some']
  rw [List.length_map, hmsg]

/-- C5 counterexample input: one hot-store item of a partition of 1001. -/
def c5Item (i : Nat) : HotMessage :=
  { conversationKey := "p5#u5#ch5", messageTimestamp := toString i, projectUuid := "p5",
    contactUrn := "u5", channelUuid := some "ch5", messageId := toString i,
    messageText := "t", sourceType := "incoming", createdAt := toString i,
    resolutionStatus := 2, expiresOn := 1 }

/-- C5 counterexample input: a hot store holding 1001 items of one
partition. -/
def c5State : SystemState :=
  { emptySystem with hotMessages := (List.range 1001).map c5Item }

/-- C5 input: the conversation owning that partition. -/
def c5Conversation : Conversation :=
  { uuid := 9, createdAt := 0, contactUrn := "u5", projectUuid := "p5",
    externalId := none, startDate := none, endDate := none, hasChatsRoom := true,
    contactName := "", channelUuid := some "ch5", nps := none, csat := none,
    resolution := HAS_CHAT_ROOM }

set_option maxRecDepth 8192 in
/-- The C5 partition of 1001 items, as the filter the migration reads. -/
theorem c5_partition_length :
    (c5State.hotMessages.filter (fun m => m.conversationKey ==
      conversationKeyOf c5Conversation.projectUuid c5Conversation.contactUrn
        c5Conversation.channelUuid)).length = 1001 := by
  have heq : c5State.hotMessages.filter (fun m => m.conversationKey ==
      conversationKeyOf c5Conversation.projectUuid c5Conversation.contactUrn
        c5Conversation.channelUuid) = c5State.hotMessages := by
    apply List.filter_eq_self.mpr
    intro m hm
    have hm2 : m ∈ (List.range 1001).map c5Item := hm
    rw [List.mem_map] at hm2
    obtain ⟨i, _, rfl⟩ := hm2
    rfl
  rw [heq]
  show ((List.range 1001).map c5Item).length = 1001
  rw [List.length_map, List.length_range]

/-- **C5 counterexample**: the claim says the archive length equals the
number of hot-store messages however many there are; with 1001 items in
the partition the written archive holds only 1000 entries (the single
`get_messages` page of limit 1000). -/
theorem c5_counterexample_archive_truncated :
    (c5State.hotMessages.filter (fun m => m.conversationKey ==
      conversationKeyOf c5Conversation.projectUuid c5Conversation.contactUrn
        c5Conversation.channelUuid)).length = 1001 ∧
    (archiveLookup (migrateConversationMessagesToPostgres c5State c5Conversation)
      c5Conversation.uuid).map List.length = some 1000 ∧
    (1000 : Nat) ≠ 1001 := by
  refine ⟨c5_partition_length, ?_, by omega⟩
  have hmain := migrate_archive_length c5State c5Conversation
    (by rw [c5_partition_length]; omega)
  rw [c5_partition_length] at hmain
  have hmin : min 1000 1001 = 1000 := by omega
  rw [hmin] at hmain
  exact hmain

/-- **C5** (amended): for every conversation whose hot-store partition is
nonempty when Migrate runs, the archived row exists and its length is
`min 1000 (partition size)` — the migration reads one `get_messages` page
of limit 1000 and ignores the continuation cursor, so only up to 1000
items are archived (the claim's "however many there are" fails above
1000). -/
theorem c5_amended_archive_length_min_1000 (s : SystemState) (conv : Conversation)
    (hne : (s.hotMessages.filter (fun m => m.conversationKey ==
        conversationKeyOf conv.projectUuid conv.contactUrn conv.channelUuid)).length ≠ 0) :
    (archiveLookup (migrateConversationMessagesToPostgres s conv) conv.uuid).map
        List.length =
      some (min 1000 (s.hotMessages.filter (fun m => m.conversationKey ==
        conversationKeyOf conv.projectUuid conv.contactUrn conv.channelUuid)).length) :=
  migrate_archive_length s conv hne

/-- C5 witness input: one-item partition. -/
def c5SmallState : SystemState :=
  { emptySystem with hotMessages := [c5Item 0] }

/-- C5 witness: the amended theorem at the one-item partition. -/
theorem c5_amended_witness :
    (c5SmallState.hotMessages.filter (fun m => m.conversationKey ==
      conversationKeyOf c5Conversation.projectUuid c5Conversation.contactUrn
        c5Conversation.channelUuid)).length ≠ 0 ∧
    (archiveLookup (migrateConversationMessagesToPostgres c5SmallState c5Conversation)
        c5Conversation.uuid).map List.length =
      some (min 1000 (c5SmallState.hotMessages.filter (fun m => m.conversationKey ==
        conversationKeyOf c5Conversation.projectUuid c5Conversation.contactUrn
          c5Conversation.channelUuid)).length) :=
  ⟨by decide, c5_amended_archive_length_min_1000 c5SmallState c5Conversation (by decide)⟩

/-! Claim C9: billing aggregation. -/

/-- The single body element `add_channel` appends for one counted
channel. -/
def dtoOfCounts (billingDate : Nat) (counts : ChannelResolutionCount) :
    ChannelConversationDTO :=
  { channelUuid := counts.channelUuid, date := billingDate,
    resolutionCount := { resolved := counts.resolved, unresolved := counts.unresolved,
                         hasChatsRooms := counts.hasChatsRooms,
                         unclassified := counts.unclassified } }

/-- `_build_request_dto` is the elementwise translation of the counted
channels into body elements carrying the billing date. -/
theorem buildRequestDTO_eq_map (l : List ChannelResolutionCount) (billingDate : Nat) :
    buildRequestDTO l billingDate = l.map (dtoOfCounts billingDate) := by
  have haux : ∀ acc : List ChannelConversationDTO,
      l.foldl (fun dto counts =>
        addChannel dto counts.channelUuid billingDate counts.resolved counts.unresolved
          counts.hasChatsRooms counts.unclassified) acc =
      acc ++ l.map (dtoOfCounts billingDate) := by
    induction l with
    | nil => intro acc; simp
    | cons x xs ih =>
      intro acc
      rw [List.foldl_cons, ih, List.map_cons]
      simp [addChannel, dtoOfCounts]
  have h0 := haux []
  rw [List.nil_append] at h0
  exact h0

/-- **C9** (confirmed): the billing aggregation produces exactly one body
element per channel among the target date's conversations of the project —
the listed channels are duplicate-free and are exactly the channels of the
matching conversations — and each element carries the target date and the
four counts: resolved = count(res=0), unresolved = count(res=1),
has_chats_rooms = count(res=4 or has_chats_room), unclassified =
count(res=3), all within that channel's group. -/
theorem c9_billing_one_element_per_channel (s : SystemState) (p : String) (d : Nat) :
    ((buildRequestDTO (getAllChannelsCounts s p d) d).map
      (fun e => e.channelUuid)).Nodup ∧
    (∀ ch, ch ∈ (buildRequestDTO (getAllChannelsCounts s p d) d).map
        (fun e => e.channelUuid) ↔
      ch ∈ (s.conversations.filter (matchesBillingFilter p d)).filterMap
        (fun c => c.channelUuid)) ∧
    (∀ e ∈ buildRequestDTO (getAllChannelsCounts s p d) d,
      e.date = d ∧
      e.resolutionCount.resolved =
        ((s.conversations.filter (matchesBillingFilter p d)).filter
          (fun c => c.channelUuid == some e.channelUuid)).countP
          (fun c => c.resolution == RESOLVED) ∧
      e.resolutionCount.unresolved =
        ((s.conversations.filter (matchesBillingFilter p d)).filter
          (fun c => c.channelUuid == some e.channelUuid)).countP
          (fun c => c.resolution == UNRESOLVED) ∧
      e.resolutionCount.hasChatsRooms =
        ((s.conversations.filter (matchesBillingFilter p d)).filter
          (fun c => c.channelUuid == some e.channelUuid)).countP
          (fun c => c.resolution == HAS_CHAT_ROOM || c.hasChatsRoom) ∧
      e.resolutionCount.unclassified =
        ((s.conversations.filter (matchesBillingFilter p d)).filter
          (fun c => c.channelUuid == some e.channelUuid)).countP
          (fun c => c.resolution == UNCLASSIFIED)) := by
  rw [buildRequestDTO_eq_map]
  simp only [getAllChannelsCounts]
  refine ⟨?_, ?_, ?_⟩
  · rw [List.map_map, List.map_map]
    have hcomp : (((fun e : ChannelConversationDTO => e.channelUuid) ∘
        dtoOfCounts d) ∘
        channelGroupCounts (s.conversations.filter (matchesBillingFilter p d))) =
        fun ch => ch := by
      funext ch
      rfl
    rw [hcomp]
    simpa using List.nodup_dedup
      ((s.conversations.filter (matchesBillingFilter p d)).filterMap (fun c => c.channelUuid))
  · intro ch
    rw [List.map_map, List.map_map]
    constructor
    · intro hmem
      rw [List.mem_map] at hmem
      obtain ⟨ch2, hch2, hcheq⟩ := hmem
      have hcheq2 : ch2 = ch := hcheq
      rw [← hcheq2]
      exact List.mem_dedup.mp hch2
    · intro hmem
      rw [List.mem_map]
      exact ⟨ch, List.mem_dedup.mpr hmem, rfl⟩
  · intro e hmem
    rw [List.mem_map] at hmem
    obtain ⟨counts, hcounts, rfl⟩ := hmem
    rw [List.mem_map] at hcounts
    obtain ⟨ch, _, rfl⟩ := hcounts
    refine ⟨rfl, ?_, ?_, ?_, ?_⟩ <;>
      simp [dtoOfCounts, channelGroupCounts, List.countP_eq_length_filter]

/-! Claim C10: close-path side-effect failures are contained. -/

/-- The `setattr` loop never touches the primary key. -/
theorem applyUpdates_uuid (u : UpdateFieldsData) (c : Conversation) :
    (applyUpdates u c).uuid = c.uuid := by
  unfold applyUpdates
  cases u.csat <;> cases u.nps <;> cases u.resolution <;> rfl

/-- A resolution write in `to_update` lands as the saved resolution. -/
theorem applyUpdates_resolution_of_some (u : UpdateFieldsData) (c : Conversation)
    (r : Nat) (h : u.resolution = some r) : (applyUpdates u c).resolution = r := by
  unfold applyUpdates
  rw [h]

/-- After `save()`, the updated row (sharing the primary key of a stored
row) is in the table. -/
theorem saveConversation_mem_updated (s : SystemState) (c0 updated : Conversation)
    (hmem : c0 ∈ s.conversations) (huuid : updated.uuid = c0.uuid) :
    updated ∈ (saveConversation s updated).conversations := by
  have himg : (if c0.uuid == updated.uuid then updated else c0) = updated := by
    rw [huuid]
    simp
  have h2 : (if c0.uuid == updated.uuid then updated else c0) ∈
      s.conversations.map (fun x => if x.uuid == updated.uuid then updated else x) :=
    List.mem_map_of_mem _ hmem
  rw [himg] at h2
  exact h2

/-- Closing a conversation through a window event survives a raising
migration or classification enqueue: the handler completes and the closed
resolution stays saved. -/
theorem processConversationWindow_close_contained (mode : CloseSideEffectMode)
    (s : SystemState) (d : EventData) (conv : Conversation)
    (hch : isBlankChannel d.channelUuid = false)
    (hfound : windowLookup (getOrCreateProject s d.projectUuid) (windowEventFromSqs d) =
      some conv)
    (hwas : conv.resolution = IN_PROGRESS)
    (hroom : d.hasChatsRoom = true) :
    (processConversationWindow mode s d).1 = HandlerOutcome.completed ∧
    ∃ c2 ∈ (processConversationWindow mode s d).2.conversations,
      c2.uuid = conv.uuid ∧ c2.resolution = HAS_CHAT_ROOM := by
  rw [windowLookup] at hfound
  simp only [windowEventFromSqs] at hfound
  have hconvmem : conv ∈ (getOrCreateProject s d.projectUuid).conversations :=
    (List.mem_filter.mp (mostRecentCreated_mem hfound)).1
  have h42 : ((4 : Nat) == 2) = false := by decide
  simp only [processConversationWindow, windowEventFromSqs, windowLookup, hch,
    Bool.false_eq_true, if_false, hroom, if_true, hfound, hwas, HAS_CHAT_ROOM,
    IN_PROGRESS, beq_self_eq_true, Bool.true_and, Bool.and_true, h42,
    Bool.not_false]
  constructor
  · trivial
  · rw [closeSideEffects_conversations]
    refine ⟨_, saveConversation_mem_updated _ conv _ hconvmem rfl, rfl, rfl⟩

/-- Closing a conversation through a field update survives a raising
migration or classification enqueue: the new resolution stays saved. -/
theorem updateConversationData_close_contained (mode : CloseSideEffectMode)
    (s : SystemState) (u : UpdateFieldsData) (p urn ch : String) (conv : Conversation)
    (hfound : tripleLookup s p urn ch = some conv)
    (hwas : conv.resolution = IN_PROGRESS)
    (hres : u.resolution = some RESOLVED) :
    ∃ c2 ∈ (updateConversationData mode s u p urn ch).conversations,
      c2.uuid = conv.uuid ∧ c2.resolution = RESOLVED := by
  have hconvmem : conv ∈ s.conversations := by
    rw [tripleLookup] at hfound
    exact (List.mem_filter.mp (mostRecentCreated_mem hfound)).1
  have hupres : (applyUpdates u conv).resolution = RESOLVED :=
    applyUpdates_resolution_of_some u conv RESOLVED hres
  have hcond : (conv.resolution == IN_PROGRESS &&
      !((applyUpdates u conv).resolution == IN_PROGRESS)) = true := by
    rw [hwas, hupres]
    rfl
  simp only [updateConversationData, hfound, hcond, if_true]
  rw [closeSideEffects_conversations]
  exact ⟨applyUpdates u conv,
    saveConversation_mem_updated s conv (applyUpdates u conv) hconvmem
      (applyUpdates_uuid u conv),
    applyUpdates_uuid u conv, hupres⟩

/-- **C10** (confirmed): when an event closes a conversation (a window
event, or a field update taking resolution out of `IN_PROGRESS`) and the
Migration Service or the classification enqueue raises, the exception is
caught and logged only: the handler still completes (so the raw message is
acknowledged), the conversation keeps its new closed resolution already
saved, and no rollback occurs — on both the window path and the
`update_conversation_data` path, whichever of the two side effects
raised. -/
theorem c10_close_failure_contained (mode : CloseSideEffectMode)
    (s sU : SystemState) (d : EventData) (conv convU : Conversation)
    (u : UpdateFieldsData) (p urn ch : String)
    (hmode : mode ≠ CloseSideEffectMode.ok)
    (hch : isBlankChannel d.channelUuid = false)
    (hfound : windowLookup (getOrCreateProject s d.projectUuid) (windowEventFromSqs d) =
      some conv)
    (hwas : conv.resolution = IN_PROGRESS)
    (hroom : d.hasChatsRoom = true)
    (hfoundU : tripleLookup sU p urn ch = some convU)
    (hwasU : convU.resolution = IN_PROGRESS)
    (hresU : u.resolution = some RESOLVED) :
    ((processConversationWindow mode s d).1 = HandlerOutcome.completed ∧
      ∃ c2 ∈ (processConversationWindow mode s d).2.conversations,
        c2.uuid = conv.uuid ∧ c2.resolution = HAS_CHAT_ROOM) ∧
    (∃ c3 ∈ (updateConversationData mode sU u p urn ch).conversations,
      c3.uuid = convU.uuid ∧ c3.resolution = RESOLVED) :=
  ⟨processConversationWindow_close_contained mode s d conv hch hfound hwas hroom,
    updateConversationData_close_contained mode sU u p urn ch convU hfoundU hwasU hresU⟩

/-- C10 witness input: the in-progress conversation the window closes. -/
def c10Conv : Conversation :=
  { uuid := 11, createdAt := 5, contactUrn := "u10", projectUuid := "p10",
    externalId := none, startDate := none, endDate := none, hasChatsRoom := false,
    contactName := "", channelUuid := some "ch10", nps := none, csat := none,
    resolution := IN_PROGRESS }

/-- C10 witness input: the pre-close state of the window path. -/
def c10State : SystemState :=
  { emptySystem with projects := ["p10"], conversations := [c10Conv] }

/-- C10 witness input: the closing window event body. -/
def c10WindowEvent : EventData :=
  { correlationId := some "corr-10", eventType := some "conversation.window",
    projectUuid := "p10", contactUrn := "u10", channelUuid := some "ch10",
    messageText := "", messageSource := none, contactName := none,
    messageCreatedAt := "", key := none, value := none,
    externalId := some "ext-10", startDate := none, endDate := none,
    hasChatsRoom := true, nameAttr := none }

/-- C10 witness input: the in-progress conversation of the field-update
path. -/
def c10ConvU : Conversation :=
  { uuid := 12, createdAt := 6, contactUrn := "u10u", projectUuid := "p10u",
    externalId := none, startDate := none, endDate := none, hasChatsRoom := false,
    contactName := "", channelUuid := some "ch10u", nps := none, csat := none,
    resolution := IN_PROGRESS }

/-- C10 witness input: the pre-close state of the field-update path. -/
def c10StateU : SystemState :=
  { emptySystem with conversations := [c10ConvU] }

/-- C10 witness input: the closing field update. -/
def c10Update : UpdateFieldsData :=
  { resolution := some RESOLVED }

/-- C10 witness: the theorem applied with a raising migration on both
close paths. -/
theorem c10_close_failure_witness :
    CloseSideEffectMode.migrationRaises ≠ CloseSideEffectMode.ok ∧
    isBlankChannel c10WindowEvent.channelUuid = false ∧
    windowLookup (getOrCreateProject c10State c10WindowEvent.projectUuid)
      (windowEventFromSqs c10WindowEvent) = some c10Conv ∧
    c10Conv.resolution = IN_PROGRESS ∧
    c10WindowEvent.hasChatsRoom = true ∧
    tripleLookup c10StateU "p10u" "u10u" "ch10u" = some c10ConvU ∧
    c10ConvU.resolution = IN_PROGRESS ∧
    c10Update.resolution = some RESOLVED ∧
    (((processConversationWindow CloseSideEffectMode.migrationRaises c10State
          c10WindowEvent).1 = HandlerOutcome.completed ∧
        ∃ c2 ∈ (processConversationWindow CloseSideEffectMode.migrationRaises c10State
            c10WindowEvent).2.conversations,
          c2.uuid = c10Conv.uuid ∧ c2.resolution = HAS_CHAT_ROOM) ∧
      (∃ c3 ∈ (updateConversationData CloseSideEffectMode.migrationRaises c10StateU
          c10Update "p10u" "u10u" "ch10u").conversations,
        c3.uuid = c10ConvU.uuid ∧ c3.resolution = RESOLVED)) :=
  ⟨by decide, by decide, by decide, by decide, by decide, by decide, by decide, by decide,
    c10_close_failure_contained CloseSideEffectMode.migrationRaises c10State c10StateU
      c10WindowEvent c10Conv c10ConvU c10Update "p10u" "u10u" "ch10u"
      (by decide) (by decide) (by decide) (by decide) (by decide) (by decide) (by decide)
      (by decide)⟩
